import Mathlib

/-!
Verification of the foodgram recipe mutation and aggregation engine.

The definitions below are a shallow embedding of the Python/Django code under
`backend/` (primarily `backend/api/recipes/serializers.py`,
`backend/api/recipes/views.py`, `backend/recipes/views.py` and
`backend/recipes/models.py`).  Database tables are embedded as lists of rows,
Django ORM calls as list operations, and DRF validation as `Except`-valued
functions.  The numeric bounds `MIN_AMOUNT`, `MAX_INGR_AMOUNT`,
`MIN_COOKING_TIME`, `MAX_COOKING_TIME` live in `backend/const.py`, which is not
part of the sources at hand, so they are passed as explicit parameters
(`amin`, `amax`, `tmin`, `tmax`).
-/

namespace Foodgram

/-- A submitted ingredient entry after DRF field deserialization:
`IngredientAmountInputSerializer` resolves `id` to an `Ingredient` (stored
under the key `ingredient`) and parses `amount` as an integer
(`backend/api/recipes/serializers.py`, lines 38-48). -/
structure IngEntry where
  ingredient : Nat
  amount : Int
deriving DecidableEq, Repr

/-- Amount bound check of `IngredientAmountInputSerializer.amount`
(`IntegerField(min_value=MIN_AMOUNT, max_value=MAX_INGR_AMOUNT)`); the same
predicate is re-checked inside `validate_ingredients`. -/
def amountOk (amin amax : Int) (a : Int) : Bool :=
  decide (amin ≤ a) && decide (a ≤ amax)

/-- Python `len(ids) != len(set(ids))`: true iff the list has a duplicate. -/
def hasDuplicate (ids : List Nat) : Bool :=
  decide (ids.length ≠ ids.dedup.length)

/-- Embedding of `RecipeCreateSerializer.validate_ingredients`
(`backend/api/recipes/serializers.py`, lines 118-134): reject an empty list,
reject duplicate ingredient ids (message "Ингредиенты должны быть
уникальными.", i.e. "ingredients must be unique"), reject an out-of-range
amount with a message naming both bounds. -/
def validate_ingredients (amin amax : Int) :
    Option (List IngEntry) → Except String (Option (List IngEntry))
  | none => .ok none
  | some l =>
    if l.isEmpty then
      .error "Нужно добавить хотя бы один ингредиент."
    else if hasDuplicate (l.map IngEntry.ingredient) then
      .error "Ингредиенты должны быть уникальными."
    else if l.all (fun it => amountOk amin amax it.amount) then
      .ok (some l)
    else
      .error ("Количество для ингредиента должно быть в диапазоне "
        ++ toString amin ++ "…" ++ toString amax ++ ".")

/-- Embedding of `RecipeCreateSerializer.validate_tags`
(`backend/api/recipes/serializers.py`, lines 136-145). -/
def validate_tags : Option (List Nat) → Except String (Option (List Nat))
  | none => .ok none
  | some l =>
    if l.isEmpty then
      .error "Выберите минимум один тег."
    else if hasDuplicate l then
      .error "Теги должны быть уникальными."
    else
      .ok (some l)

/-- The raw mutation payload as seen by `RecipeCreateSerializer`.  For the
`ingredients` and `tags` fields, `none` means the key is absent from the
caller's payload (`self.initial_data`), `some` that it is present with the
given parsed value.  `imagePresent`/`imageEmpty` describe the raw `image`
value, `cooking_time` the parsed integer field. -/
structure RawPayload where
  ingredients : Option (List IngEntry)
  tags : Option (List Nat)
  imagePresent : Bool
  imageEmpty : Bool
  cooking_time : Option Int
  name : String
  text : String
deriving DecidableEq, Repr

/-- Embedding of the cross-field `RecipeCreateSerializer.validate`
(`backend/api/recipes/serializers.py`, lines 147-172): on update
(`self.instance is not None`) the raw payload must contain both the
`ingredients` and the `tags` key; a present-but-empty `image` is rejected; a
present `cooking_time` must lie within its bounds. -/
def validate_cross (tmin tmax : Int) (isUpdate : Bool) (p : RawPayload) :
    Except String Unit :=
  if isUpdate && p.ingredients.isNone then
    .error "Нужно добавить хотя бы один ингредиент."
  else if isUpdate && p.tags.isNone then
    .error "Выберите минимум один тег."
  else if p.imagePresent && p.imageEmpty then
    .error "Изображение обязательно."
  else
    match p.cooking_time with
    | some ct =>
      if decide (tmin ≤ ct) && decide (ct ≤ tmax) then .ok ()
      else .error ("1…" ++ toString tmax ++ " минут.")
    | none => .ok ()

/-- The DRF validation pipeline of `RecipeCreateSerializer.is_valid`: on
create, the declared fields `ingredients` and `tags` are required (DRF
"This field is required." for a missing key); then the per-field validators
`validate_ingredients` and `validate_tags` run, then the cross-field
`validate`.  Returns the validated payload unchanged on success. -/
def runValidation (amin amax tmin tmax : Int) (isUpdate : Bool)
    (p : RawPayload) : Except String RawPayload :=
  if !isUpdate && p.ingredients.isNone then
    .error "Обязательное поле."
  else if !isUpdate && p.tags.isNone then
    .error "Обязательное поле."
  else
    match validate_ingredients amin amax p.ingredients with
    | .error e => .error e
    | .ok _ =>
      match validate_tags p.tags with
      | .error e => .error e
      | .ok _ =>
        match validate_cross tmin tmax isUpdate p with
        | .error e => .error e
        | .ok _ => .ok p

/-- A row of the `Recipe` table (`backend/recipes/models.py`, lines 41-87);
the scalar columns that the claims never inspect are kept as plain data. -/
structure Recipe where
  id : Nat
  author : Nat
  name : String
  text : String
  image : String
  cooking_time : Int
deriving DecidableEq, Repr

/-- A row of the `IngredientAmount` table (`backend/recipes/models.py`,
lines 90-124): the through model between `Recipe` and `Ingredient`. -/
structure IngredientAmount where
  recipe : Nat
  ingredient : Nat
  amount : Int
deriving DecidableEq, Repr

/-- A row of the `Ingredient` table (`backend/recipes/models.py`,
lines 26-38). -/
structure Ingredient where
  id : Nat
  name : String
  measurement_unit : String
deriving DecidableEq, Repr

/-- The relational storage: `recipes`, the recipe-tag M2M join table,
the `IngredientAmount` through table, the `Ingredient` catalog, and the
`Bookmark` / `CartItem` relation tables (each a list of (user, recipe)
pairs, `backend/recipes/models.py`, lines 145-174). -/
structure Store where
  recipes : List Recipe
  recipeTags : List (Nat × Nat)
  ingredientAmounts : List IngredientAmount
  ingredients : List Ingredient
  bookmarks : List (Nat × Nat)
  cartItems : List (Nat × Nat)
deriving DecidableEq, Repr

/-- Embedding of `RecipeCreateSerializer._set_tags_and_ingredients`
(`backend/api/recipes/serializers.py`, lines 174-187): when tags were
supplied, `recipe.tags.set(tags_data)` replaces the recipe's tag association
set; when ingredients were supplied, `recipe.ingredient_amounts.all().delete()`
followed by `IngredientAmount.objects.bulk_create(...)` replaces the recipe's
through rows.  `none` leaves the corresponding collection untouched. -/
def setTagsAndIngredients (rid : Nat) (tags : Option (List Nat))
    (ings : Option (List IngEntry)) (s : Store) : Store :=
  let s1 :=
    match tags with
    | some ts =>
      { s with recipeTags :=
          s.recipeTags.filter (fun p => p.1 ≠ rid) ++ ts.map (fun t => (rid, t)) }
    | none => s
  match ings with
  | some l =>
    { s1 with ingredientAmounts :=
        s1.ingredientAmounts.filter (fun r => r.recipe ≠ rid)
          ++ l.map (fun e => ⟨rid, e.ingredient, e.amount⟩) }
  | none => s1

/-- Fresh primary key chosen by `Recipe.objects.create`. -/
def freshId (s : Store) : Nat :=
  (s.recipes.map Recipe.id).foldr max 0 + 1

/-- Scalar row built from the validated payload by `Recipe.objects.create`. -/
def recipeOfPayload (rid author : Nat) (p : RawPayload) : Recipe :=
  ⟨rid, author, p.name, p.text, "image", p.cooking_time.getD 0⟩

/-- Embedding of `RecipeCreateSerializer.create`
(`backend/api/recipes/serializers.py`, lines 189-194): pop `ingredients` and
`tags` (defaulting to `[]`), insert the `Recipe` row, then
`_set_tags_and_ingredients`.  Returns the new recipe id with the new store. -/
def createRecipe (author : Nat) (p : RawPayload) (s : Store) : Nat × Store :=
  let rid := freshId s
  let s1 := { s with recipes := s.recipes ++ [recipeOfPayload rid author p] }
  (rid, setTagsAndIngredients rid (some (p.tags.getD []))
          (some (p.ingredients.getD [])) s1)

/-- Embedding of `RecipeCreateSerializer.update`
(`backend/api/recipes/serializers.py`, lines 196-201): pop `ingredients` and
`tags` (defaulting to `None`), apply the scalar field changes
(`super().update`), then `_set_tags_and_ingredients`. -/
def updateRecipe (rid : Nat) (scalars : Recipe → Recipe)
    (tags : Option (List Nat)) (ings : Option (List IngEntry))
    (s : Store) : Store :=
  let s1 :=
    { s with recipes :=
        s.recipes.map (fun r => if r.id = rid then scalars r else r) }
  setTagsAndIngredients rid tags ings s1

/-- The create endpoint (`RecipeViewSet.create` → `is_valid(raise_exception
=True)` → `serializer.save(author=...)`): runs the full validation pipeline
and only on success performs `createRecipe`; on a `ValidationError` nothing
is written and the store is unchanged. -/
def createEndpoint (amin amax tmin tmax : Int) (author : Nat)
    (p : RawPayload) (s : Store) : Except String (Nat × Store) :=
  match runValidation amin amax tmin tmax false p with
  | .error e => .error e
  | .ok v => .ok (createRecipe author v s)

/-- The update endpoint (`RecipeViewSet.partial_update`/`update` →
`is_valid(raise_exception=True)` → `serializer.save()`): validation with
`self.instance` set, then `updateRecipe`. -/
def updateEndpoint (amin amax tmin tmax : Int) (rid : Nat)
    (scalars : Recipe → Recipe) (p : RawPayload) (s : Store) :
    Except String Store :=
  match runValidation amin amax tmin tmax true p with
  | .error e => .error e
  | .ok v => .ok (updateRecipe rid scalars v.tags v.ingredients s)

/-- Store observed by callers after an endpoint call: the new store on
success, the untouched pre-call store when validation raised. -/
def observedStore (s : Store) : Except String (Nat × Store) → Store
  | .ok (_, s') => s'
  | .error _ => s

/-- Tag ids of a recipe as read back by `RecipeSerializer`
(`tags = TagSerializer(many=True)` over the M2M join). -/
def readTagIds (s : Store) (rid : Nat) : List Nat :=
  (s.recipeTags.filter (fun p => p.1 = rid)).map Prod.snd

/-- The (ingredient id, amount) pairs of a recipe as read back by
`RecipeSerializer` through `IngredientAmountSerializer`
(`source='ingredient_amounts'`). -/
def readIngredientPairs (s : Store) (rid : Nat) : List (Nat × Int) :=
  (s.ingredientAmounts.filter (fun r => r.recipe = rid)).map
    (fun r => (r.ingredient, r.amount))

/-- Relation kind: the two user-recipe relation tables, `Bookmark`
("favorite") and `CartItem` ("cart"). -/
inductive Kind where
  | favorite
  | cart
deriving DecidableEq, Repr

/-- Rows of the relation table of a given kind. -/
def relList (k : Kind) (s : Store) : List (Nat × Nat) :=
  match k with
  | .favorite => s.bookmarks
  | .cart => s.cartItems

/-- Write back the relation table of a given kind. -/
def setRelList (k : Kind) (l : List (Nat × Nat)) (s : Store) : Store :=
  match k with
  | .favorite => { s with bookmarks := l }
  | .cart => { s with cartItems := l }

/-- The per-kind "already present" detail messages of
`RecipeViewSet.favorite` / `RecipeViewSet.shopping_cart`
(`backend/recipes/views.py`, lines 145-181). -/
def alreadyMessage : Kind → String
  | .favorite => "Рецепт уже в избранном"
  | .cart => "Рецепт уже в списке покупок"

/-- The per-kind "not present" detail messages of
`RecipeViewSet.delete_favorite` / `RecipeViewSet.delete_shopping_cart`
(`backend/recipes/views.py`, lines 158-193). -/
def absentMessage : Kind → String
  | .favorite => "Рецепта нет в избранном"
  | .cart => "Рецепта нет в списке покупок"

/-- The short recipe card rendered by `ShortRecipeSerializer`
(fields `id`, `name`, `image`, `cooking_time`). -/
structure ShortRecipe where
  id : Nat
  name : String
  image : String
  cooking_time : Int
deriving DecidableEq, Repr

/-- Rendering of a recipe by `ShortRecipeSerializer`. -/
def shortOf (r : Recipe) : ShortRecipe :=
  ⟨r.id, r.name, r.image, r.cooking_time⟩

/-- Outcome of a toggle-relation call, as surfaced to the HTTP client:
201 with the short card, 400 "already" (Conflict), 204, or 400 "absent"
(NotPresent). -/
inductive ToggleResult where
  | created (summary : ShortRecipe)
  | conflict (detail : String)
  | removed
  | notPresent (detail : String)
deriving DecidableEq, Repr

/-- Embedding of the add path of `RecipeViewSet.favorite` /
`RecipeViewSet.shopping_cart` (`backend/recipes/views.py`, lines 145-156 and
170-181): `get_or_create(user=..., recipe=...)`; when the row already exists
(`not created`) the call answers 400 with the already-present detail and the
store is untouched, otherwise the row is inserted and the short card of the
recipe is returned with 201. -/
def addRelation (k : Kind) (u : Nat) (r : Recipe) (s : Store) :
    ToggleResult × Store :=
  if (u, r.id) ∈ relList k s then
    (.conflict (alreadyMessage k), s)
  else
    (.created (shortOf r), setRelList k (relList k s ++ [(u, r.id)]) s)

/-- Embedding of the delete path of `RecipeViewSet.delete_favorite` /
`RecipeViewSet.delete_shopping_cart` (`backend/recipes/views.py`,
lines 158-168 and 183-193): `filter(user=..., recipe=...).delete()` returns
the deleted row count; a zero count answers 400 with the not-present detail,
otherwise 204. -/
def removeRelation (k : Kind) (u : Nat) (r : Recipe) (s : Store) :
    ToggleResult × Store :=
  let l := relList k s
  let l2 := l.filter (fun p => p ≠ (u, r.id))
  if l2.length = l.length then
    (.notPresent (absentMessage k), s)
  else
    (.removed, setRelList k l2 s)

/-- Behavior of `serializer.save()` inside `_toggle_relation`: the insert
either succeeds, raises the unique-constraint violation of
`unique_user_recipe_favorite` / `unique_user_recipe_cart`, or raises some
other, unexpected storage exception. -/
inductive SaveOutcome where
  | ok
  | uniqueViolation
  | otherFailure
deriving DecidableEq, Repr

/-- An HTTP reply: status code plus the optional `detail` message body. -/
structure HttpReply where
  status : Nat
  detail : Option String
deriving DecidableEq, Repr

/-- Embedding of the add branch of `RecipeViewSet._toggle_relation`
(`backend/api/recipes/views.py`, lines 97-113): when the relation row is
already present, the create serializer's uniqueness validation fails and the
view answers `400 {detail: already_message}`; otherwise `serializer.save()`
runs inside `try ... except Exception`, and ANY exception — uniqueness
violation or not — is answered with the same `400 {detail: already_message}`
reply, leaving the store untouched; a successful save inserts the row and
answers 201. -/
def toggleRelationAdd (k : Kind) (u : Nat) (r : Recipe)
    (saveOutcome : SaveOutcome) (s : Store) : HttpReply × Store :=
  if (u, r.id) ∈ relList k s then
    (⟨400, some (alreadyMessage k)⟩, s)
  else
    match saveOutcome with
    | .ok => (⟨201, none⟩, setRelList k (relList k s ++ [(u, r.id)]) s)
    | _ => (⟨400, some (alreadyMessage k)⟩, s)

/-- Ordinal (code-point) comparison of character lists: the order in which
the database collates the `name` column for `order_by('name')` in the
spec's reading ("case-sensitive ordinal order on the resolved name
string"). -/
def charListLe : List Char → List Char → Bool
  | [], _ => true
  | _ :: _, [] => false
  | a :: as, b :: bs =>
    if a.toNat < b.toNat then true
    else if b.toNat < a.toNat then false
    else charListLe as bs

/-- Ordinal comparison of ingredient names. -/
def nameLe (a b : String) : Bool :=
  charListLe a.data b.data

/-- Order on aggregation group keys (name, unit): by name, as in
`order_by('name')`. -/
def keyLe (a b : String × String) : Prop :=
  nameLe a.1 b.1 = true

instance : DecidableRel keyLe :=
  fun a b => inferInstanceAs (Decidable (nameLe a.1 b.1 = true))

/-- Cart membership test for `recipe__cart_items__user=user`. -/
def inCartOf (s : Store) (u : Nat) (rid : Nat) : Bool :=
  decide ((u, rid) ∈ s.cartItems)

/-- Foreign-key resolution of an `IngredientAmount.ingredient` reference. -/
def lookupIngredient (s : Store) (iid : Nat) : Option Ingredient :=
  s.ingredients.find? (fun i => decide (i.id = iid))

/-- The join computed by
`IngredientAmount.objects.filter(recipe__cart_items__user=user)
.values(name=F('ingredient__name'), unit=F('ingredient__measurement_unit'))`
in `RecipeViewSet._build_shopping_list` (`backend/api/recipes/views.py`,
lines 179-192): every through row whose recipe is in the user's cart,
with the ingredient's name and unit resolved. -/
def cartJoinRows (s : Store) (u : Nat) : List (String × String × Int) :=
  (s.ingredientAmounts.filter (fun r => inCartOf s u r.recipe)).filterMap
    (fun r => (lookupIngredient s r.ingredient).map
      (fun i => (i.name, i.measurement_unit, r.amount)))

/-- Grouping key of a joined row: (ingredient name, measurement unit). -/
def rowKey (x : String × String × Int) : String × String :=
  (x.1, x.2.1)

/-- The distinct group keys produced by the SQL `GROUP BY name, unit`. -/
def groupKeys (l : List (String × String × Int)) : List (String × String) :=
  (l.map rowKey).dedup

/-- The `Sum('amount')` aggregate of one group. -/
def groupTotal (l : List (String × String × Int)) (k : String × String) : Int :=
  ((l.filter (fun x => decide (rowKey x = k))).map (fun x => x.2.2)).sum

/-- The group keys in the order delivered by `order_by('name')`. -/
def sortedKeys (l : List (String × String × Int)) : List (String × String) :=
  List.insertionSort keyLe (groupKeys l)

/-- One output line of the shopping list: `f"{name} — {total} {unit}"`. -/
def shoppingLine (k : String × String) (total : Int) : String :=
  k.1 ++ " — " ++ toString total ++ " " ++ k.2

/-- Embedding of `RecipeViewSet._build_shopping_list`
(`backend/api/recipes/views.py`, lines 179-192): group, sum, order by name,
render one line per group joined by newlines; Python's
`'\n'.join(lines) or 'Список покупок пуст.'` substitutes the placeholder
exactly when the joined text is empty. -/
def buildShoppingList (s : Store) (u : Nat) : String :=
  let rows := cartJoinRows s u
  let lines := (sortedKeys rows).map (fun k => shoppingLine k (groupTotal rows k))
  let content := String.intercalate "\n" lines
  if content = "" then "Список покупок пуст." else content

/-- Modelled from the spec: the Django project settings module (which is the
place where transactional request handling is configured) is not among the
sources at hand, and the serializers contain no explicit transaction block;
spec §5 states that `create` and `update` each execute inside a single
storage transaction whose failure leaves storage exactly as it was before
the call.  `runSteps` threads a store through a list of sub-steps, each of
which may fail. -/
def runSteps : Store → List (Store → Option Store) → Option Store
  | s, [] => some s
  | s, f :: fs =>
    match f s with
    | some s' => runSteps s' fs
    | none => none

/-- Modelled from the spec: transactional execution — the store observed
after the call is the fully updated store when every sub-step succeeded
(commit) and the untouched pre-call store when any sub-step failed
(rollback); no intermediate store is ever observable. -/
def atomically (s : Store) (steps : List (Store → Option Store)) :
    Store × Bool :=
  match runSteps s steps with
  | some s' => (s', true)
  | none => (s, false)

/-- Fault injection: turn pure sub-steps into failing ones, failing at the
step of the given index. -/
def faulty (failAt : Option Nat) (steps : List (Store → Store)) :
    List (Store → Option Store) :=
  steps.enum.map
    (fun fi => fun s => if failAt = some fi.1 then none else some (fi.2 s))

/-- The three storage sub-steps of `RecipeCreateSerializer.create`
(`backend/api/recipes/serializers.py`, lines 189-194), in source order:
the `Recipe` row insert, the tag-association replacement, and the
ingredient-amount replacement. -/
def createStepList (author : Nat) (p : RawPayload) (rid : Nat) :
    List (Store → Store) :=
  [ fun s => { s with recipes := s.recipes ++ [recipeOfPayload rid author p] },
    fun s => setTagsAndIngredients rid (some (p.tags.getD [])) none s,
    fun s => setTagsAndIngredients rid none (some (p.ingredients.getD [])) s ]

/-- The three storage sub-steps of `RecipeCreateSerializer.update`
(`backend/api/recipes/serializers.py`, lines 196-201), in source order:
the scalar-field write, the tag-association replacement, and the
ingredient-amount replacement. -/
def updateStepList (rid : Nat) (scalars : Recipe → Recipe)
    (tags : Option (List Nat)) (ings : Option (List IngEntry)) :
    List (Store → Store) :=
  [ fun s =>
      { s with recipes :=
          s.recipes.map (fun r => if r.id = rid then scalars r else r) },
    fun s => setTagsAndIngredients rid tags none s,
    fun s => setTagsAndIngredients rid none ings s ]

/-- The requesting user as seen through `self.context.get('request').user`:
either the anonymous user or an authenticated user id. -/
inductive Requester where
  | anonymous
  | authed (id : Nat)
deriving DecidableEq, Repr

/-- Embedding of `RecipeSerializer.get_is_favorited`
(`backend/api/recipes/serializers.py`, lines 78-85): a non-`None` annotated
`is_favorited` attribute wins; otherwise an anonymous requester gets
`False`, and an authenticated one the existence test
`user.bookmarks.filter(recipe=obj).exists()`. -/
def get_is_favorited (annotated : Option Bool) (req : Requester)
    (s : Store) (rid : Nat) : Bool :=
  match annotated with
  | some b => b
  | none =>
    match req with
    | .anonymous => false
    | .authed u => decide ((u, rid) ∈ s.bookmarks)

/-- Embedding of `RecipeSerializer.get_is_in_shopping_cart`
(`backend/api/recipes/serializers.py`, lines 87-94). -/
def get_is_in_shopping_cart (annotated : Option Bool) (req : Requester)
    (s : Store) (rid : Nat) : Bool :=
  match annotated with
  | some b => b
  | none =>
    match req with
    | .anonymous => false
    | .authed u => decide ((u, rid) ∈ s.cartItems)

/-- The pair of flags in a rendered recipe representation.  The model
instances handed to `RecipeSerializer` carry no `is_favorited` /
`is_in_shopping_cart` annotation — no queryset in the sources annotates
those names, and `Recipe` has no such column — so
`getattr(obj, 'is_favorited', None)` is `None` and both method fields take
the `annotated = none` branch. -/
def representationFlags (req : Requester) (s : Store) (rid : Nat) :
    Bool × Bool :=
  (get_is_favorited none req s rid, get_is_in_shopping_cart none req s rid)

/-- Totality of the ordinal comparison on character lists. -/
theorem charListLe_total :
    ∀ as bs : List Char, charListLe as bs = true ∨ charListLe bs as = true
  | [], _ => Or.inl rfl
  | _ :: _, [] => Or.inr rfl
  | a :: as, b :: bs => by
    rcases Nat.lt_trichotomy a.toNat b.toNat with h | h | h
    · left; simp [charListLe, h]
    · rcases charListLe_total as bs with ih | ih
      · left; simp [charListLe, h, ih]
      · right; simp [charListLe, h, ih]
    · right; simp [charListLe, h]

/-- Transitivity of the ordinal comparison on character lists. -/
theorem charListLe_trans :
    ∀ as bs cs : List Char, charListLe as bs = true → charListLe bs cs = true →
      charListLe as cs = true
  | [], _, _ => fun _ _ => rfl
  | _ :: _, [], _ => fun h _ => by simp [charListLe] at h
  | _ :: _, _ :: _, [] => fun _ h => by simp [charListLe] at h
  | a :: as, b :: bs, c :: cs => fun h1 h2 => by
    simp only [charListLe] at h1 h2 ⊢
    split_ifs at h1 h2 ⊢ with hab hba hbc hcb hac hca
    all_goals try rfl
    all_goals try omega
    all_goals try simp_all
    exact charListLe_trans as bs cs h1 h2

instance : IsTotal (String × String) keyLe :=
  ⟨fun a b => charListLe_total a.1.data b.1.data⟩

instance : IsTrans (String × String) keyLe :=
  ⟨fun a b c h1 h2 => charListLe_trans a.1.data b.1.data c.1.data h1 h2⟩

/-! Helper lemmas shared by the claim theorems. -/

theorem relList_setRelList (k : Kind) (l : List (Nat × Nat)) (s : Store) :
    relList k (setRelList k l s) = l := by
  cases k <;> rfl

theorem removeRelation_of_mem (k : Kind) (u : Nat) (r : Recipe) (s : Store)
    (h : (u, r.id) ∈ relList k s) :
    removeRelation k u r s =
      (.removed,
        setRelList k ((relList k s).filter (fun p => p ≠ (u, r.id))) s) := by
  have hlt : ((relList k s).filter (fun p => p ≠ (u, r.id))).length
      < (relList k s).length := by
    apply List.length_filter_lt_length_iff_exists.mpr
    exact ⟨(u, r.id), h, by simp⟩
  unfold removeRelation
  rw [if_neg (by omega)]

/-- C10: every recipe representation produced for an unauthenticated
requester has `is_favorited = false` and `is_in_shopping_cart = false`,
whatever `Bookmark` or `CartItem` rows the store holds. -/
theorem c10_anonymous_flags_false (s : Store) (rid : Nat) :
    representationFlags .anonymous s rid = (false, false) := rfl

/-- C9 counterexample: in `_toggle_relation`, an unexpected storage failure
(`SaveOutcome.otherFailure`, standing for any exception that is not the
uniqueness violation) raised by `serializer.save()` on an empty store is
answered with the Conflict reply `400 {detail: "Рецепт уже в избранном"}`
instead of propagating as a generic server error. -/
theorem c9_unexpected_failure_surfaced_as_conflict :
    toggleRelationAdd .favorite 1 ⟨1, 2, "r", "t", "img", 10⟩ .otherFailure
        ⟨[], [], [], [], [], []⟩
      = (⟨400, some "Рецепт уже в избранном"⟩, ⟨[], [], [], [], [], []⟩) := rfl

/-- C9 (amended): `_toggle_relation`'s add path translates the
uniqueness-constraint violation into the Conflict reply, and any other,
unexpected storage failure raised by the insert is surfaced as the very same
Conflict reply (`400` with the already-present detail) — not as a generic
server error — with no partial state committed; a successful save inserts
the row and answers 201. -/
theorem c9_every_insert_failure_is_conflict (k : Kind) (u : Nat) (r : Recipe)
    (o : SaveOutcome) (s : Store) :
    (o = .uniqueViolation →
      toggleRelationAdd k u r o s = (⟨400, some (alreadyMessage k)⟩, s))
    ∧ (o = .otherFailure →
      toggleRelationAdd k u r o s = (⟨400, some (alreadyMessage k)⟩, s))
    ∧ ((u, r.id) ∉ relList k s → o = .ok →
      toggleRelationAdd k u r o s
        = (⟨201, none⟩, setRelList k (relList k s ++ [(u, r.id)]) s)) := by
  refine ⟨?_, ?_, ?_⟩
  · rintro rfl
    unfold toggleRelationAdd
    split_ifs <;> rfl
  · rintro rfl
    unfold toggleRelationAdd
    split_ifs <;> rfl
  · intro hmem hok
    subst hok
    unfold toggleRelationAdd
    rw [if_neg hmem]

/-- C5: for each kind, from a state not containing the relation, `add`
succeeds with the short recipe card and inserts the row, and a second `add`
answers Conflict leaving the state unchanged; from a state containing the
relation, `remove` succeeds, and a second `remove` answers NotPresent
leaving the state unchanged — never a silent second success. -/
theorem c5_add_remove_twice (k : Kind) (u : Nat) (r : Recipe) (s : Store) :
    ((u, r.id) ∉ relList k s →
      addRelation k u r s
          = (.created (shortOf r), setRelList k (relList k s ++ [(u, r.id)]) s)
        ∧ addRelation k u r (addRelation k u r s).2
          = (.conflict (alreadyMessage k), (addRelation k u r s).2))
    ∧ ((u, r.id) ∈ relList k s →
      (removeRelation k u r s).1 = .removed
        ∧ removeRelation k u r (removeRelation k u r s).2
          = (.notPresent (absentMessage k), (removeRelation k u r s).2)) := by
  constructor
  · intro hnot
    have h1 : addRelation k u r s
        = (.created (shortOf r), setRelList k (relList k s ++ [(u, r.id)]) s) := by
      unfold addRelation
      rw [if_neg hnot]
    refine ⟨h1, ?_⟩
    rw [h1]
    unfold addRelation
    rw [relList_setRelList, if_pos (by simp)]
  · intro hmem
    have h1 := removeRelation_of_mem k u r s hmem
    refine ⟨by rw [h1], ?_⟩
    rw [h1]
    unfold removeRelation
    simp only [relList_setRelList, List.filter_filter]
    rw [if_pos (by simp)]

/-- C2 counterexample: an update payload containing neither the `tags` key
nor the `ingredients` key does not pass validation — `validate` raises
`{'ingredients': 'Нужно добавить хотя бы один ингредиент.'}` — although the
claim states validation succeeds on omission. -/
theorem c2_omitted_keys_rejected_on_update :
    runValidation 1 100 1 100 true ⟨none, none, false, false, none, "x", "y"⟩
      = .error "Нужно добавить хотя бы один ингредиент." := rfl

/-- C2 (amended): on update, the `tags` and `ingredients` keys are both
required — a payload missing either key fails validation (omission is NOT
permitted) — and a payload carrying one of those keys with an empty value
fails with the same message as the empty-value failure on create. -/
theorem c2_update_keys_required (amin amax tmin tmax : Int) (p : RawPayload) :
    (p.ingredients.isNone ∨ p.tags.isNone →
      ∀ v, runValidation amin amax tmin tmax true p ≠ .ok v)
    ∧ (p.ingredients = some [] →
      runValidation amin amax tmin tmax true p
          = .error "Нужно добавить хотя бы один ингредиент."
        ∧ validate_ingredients amin amax (some [])
          = .error "Нужно добавить хотя бы один ингредиент.")
    ∧ (validate_ingredients amin amax p.ingredients = .ok p.ingredients →
      p.tags = some [] →
      runValidation amin amax tmin tmax true p
          = .error "Выберите минимум один тег."
        ∧ validate_tags (some []) = .error "Выберите минимум один тег.") := by
  refine ⟨?_, ?_, ?_⟩
  · intro habsent v
    unfold runValidation
    simp only [Bool.not_true, Bool.false_and, if_false]
    rcases habsent with hi | ht
    · rw [Option.isNone_iff_eq_none] at hi
      rw [hi]
      cases hvt : validate_tags p.tags with
      | error e => simp [validate_ingredients]
      | ok w =>
        simp only [validate_ingredients, hvt]
        simp [validate_cross, hi]
    · rw [Option.isNone_iff_eq_none] at ht
      cases hvi : validate_ingredients amin amax p.ingredients with
      | error e => simp [hvi]
      | ok w =>
        simp only [hvi, ht, validate_tags]
        cases hni : p.ingredients with
        | none => simp [validate_cross, hni]
        | some l => simp [validate_cross, hni, ht]
  · intro hi
    have hvi : validate_ingredients amin amax p.ingredients
        = .error "Нужно добавить хотя бы один ингредиент." := by
      rw [hi]; rfl
    constructor
    · unfold runValidation
      simp [hvi]
    · rfl
  · intro hvi ht
    constructor
    · unfold runValidation
      simp only [Bool.not_true, Bool.false_and, if_false]
      rw [hvi, ht]
      rfl
    · rfl

/-- C9 witness: a uniqueness violation on a concrete insert is answered with
the Conflict reply. -/
theorem c9_every_insert_failure_is_conflict_witness :
    toggleRelationAdd .favorite 1 ⟨1, 2, "r", "t", "img", 10⟩ .uniqueViolation
        ⟨[], [], [], [], [], []⟩
      = (⟨400, some (alreadyMessage .favorite)⟩, ⟨[], [], [], [], [], []⟩) :=
  (c9_every_insert_failure_is_conflict .favorite 1 ⟨1, 2, "r", "t", "img", 10⟩
    .uniqueViolation ⟨[], [], [], [], [], []⟩).1 rfl

/-- C5 witness: on concrete stores, the first `add` creates and the first
`remove` removes. -/
theorem c5_add_remove_twice_witness :
    (addRelation .favorite 1 ⟨1, 2, "r", "t", "img", 10⟩
        ⟨[], [], [], [], [], []⟩).1
      = .created (shortOf ⟨1, 2, "r", "t", "img", 10⟩)
    ∧ (removeRelation .favorite 1 ⟨1, 2, "r", "t", "img", 10⟩
        ⟨[], [], [], [], [(1, 1)], []⟩).1 = .removed :=
  ⟨congrArg Prod.fst
      (((c5_add_remove_twice .favorite 1 ⟨1, 2, "r", "t", "img", 10⟩
        ⟨[], [], [], [], [], []⟩).1 (by decide)).1),
   ((c5_add_remove_twice .favorite 1 ⟨1, 2, "r", "t", "img", 10⟩
        ⟨[], [], [], [], [(1, 1)], []⟩).2 (by decide)).1⟩

/-- C2 witness: a concrete update payload with the `ingredients` key absent
never validates. -/
theorem c2_update_keys_required_witness :
    ∀ v, runValidation 1 100 1 100 true
        ⟨none, some [3], false, false, none, "x", "y"⟩ ≠ .ok v :=
  (c2_update_keys_required 1 100 1 100
    ⟨none, some [3], false, false, none, "x", "y"⟩).1 (Or.inl rfl)

theorem hasDuplicate_eq_true_iff (ids : List Nat) :
    hasDuplicate ids = true ↔ ¬ ids.Nodup := by
  unfold hasDuplicate
  rw [decide_eq_true_iff]
  constructor
  · intro hne hnd
    exact hne (by rw [List.dedup_eq_self.mpr hnd])
  · intro hnd hne
    apply hnd
    have hsub : List.Sublist ids.dedup ids := List.dedup_sublist ids
    have heq : ids.dedup = ids := hsub.eq_of_length hne.symm
    rw [← heq]
    exact List.nodup_dedup ids

theorem validate_ingredients_of_dup {amin amax : Int} {l : List IngEntry}
    (hdup : ¬ (l.map IngEntry.ingredient).Nodup) :
    validate_ingredients amin amax (some l)
      = .error "Ингредиенты должны быть уникальными." := by
  have hne : l ≠ [] := by
    rintro rfl
    exact hdup (by simp)
  simp only [validate_ingredients]
  rw [if_neg (by simpa using hne), if_pos ((hasDuplicate_eq_true_iff _).mpr hdup)]

theorem validate_ingredients_ok_bounds {amin amax : Int} {l : List IngEntry}
    {w : Option (List IngEntry)}
    (h : validate_ingredients amin amax (some l) = .ok w) :
    w = some l ∧ ∀ e ∈ l, amin ≤ e.amount ∧ e.amount ≤ amax := by
  simp only [validate_ingredients] at h
  split_ifs at h with h1 h2 h3
  cases h
  refine ⟨rfl, fun e he => ?_⟩
  have hb := List.all_eq_true.mp h3 e he
  unfold amountOk at hb
  simp only [Bool.and_eq_true, decide_eq_true_eq] at hb
  exact hb

theorem runValidation_ok_parts {amin amax tmin tmax : Int} {isUpdate : Bool}
    {p v : RawPayload}
    (h : runValidation amin amax tmin tmax isUpdate p = .ok v) :
    v = p ∧ (∃ w, validate_ingredients amin amax p.ingredients = .ok w)
      ∧ (isUpdate = false → p.ingredients.isSome) := by
  unfold runValidation at h
  split_ifs at h with h1 h2
  cases hvi : validate_ingredients amin amax p.ingredients with
  | error e => simp only [hvi] at h; exact (Except.noConfusion h)
  | ok w =>
    simp only [hvi] at h
    cases hvt : validate_tags p.tags with
    | error e => simp only [hvt] at h; exact (Except.noConfusion h)
    | ok w2 =>
      simp only [hvt] at h
      cases hvc : validate_cross tmin tmax isUpdate p with
      | error e => simp only [hvc] at h; exact (Except.noConfusion h)
      | ok uu =>
        simp only [hvc] at h
        have hv : v = p := by
          have h2 := h
          simp only [Except.ok.injEq] at h2
          exact h2.symm
        refine ⟨hv, ⟨w, rfl⟩, fun hup => ?_⟩
        subst hup
        simp only [Bool.not_false, Bool.true_and] at h1
        cases hni : p.ingredients with
        | none => rw [hni] at h1; simp at h1
        | some l => rfl

/-- C6: a creation payload whose ingredient list repeats an ingredient id
(and whose `tags` key is present, so the field-level errors are attributed to
`ingredients`) fails with the ValidationError "Ингредиенты должны быть
уникальными." ("ingredients must be unique"), and no recipe, tag-association
or IngredientAmount row is written: storage is untouched. -/
theorem c6_duplicate_ingredient_rejected (amin amax tmin tmax : Int)
    (author : Nat) (p : RawPayload) (s : Store) (l : List IngEntry)
    (hl : p.ingredients = some l) (ht : p.tags.isSome)
    (hdup : ¬ (l.map IngEntry.ingredient).Nodup) :
    createEndpoint amin amax tmin tmax author p s
        = .error "Ингредиенты должны быть уникальными."
      ∧ observedStore s (createEndpoint amin amax tmin tmax author p s)
        = s := by
  have hrv : runValidation amin amax tmin tmax false p
      = .error "Ингредиенты должны быть уникальными." := by
    unfold runValidation
    rw [if_neg (by simp [hl]),
      if_neg (by simpa using Option.isSome_iff_ne_none.mp ht),
      hl, validate_ingredients_of_dup hdup]
  have hce : createEndpoint amin amax tmin tmax author p s
      = .error "Ингредиенты должны быть уникальными." := by
    unfold createEndpoint
    rw [hrv]
  exact ⟨hce, by rw [hce]; rfl⟩

/-- C6 witness: the scenario of the claim, `ingredients =
[{id 1, amount 100}, {id 1, amount 50}]`, is rejected with the uniqueness
message and writes nothing. -/
theorem c6_duplicate_ingredient_rejected_witness :
    createEndpoint 1 100 1 100 9
        ⟨some [⟨1, 100⟩, ⟨1, 50⟩], some [1], false, false, none, "n", "t"⟩
        ⟨[], [], [], [], [], []⟩
      = .error "Ингредиенты должны быть уникальными."
    ∧ observedStore ⟨[], [], [], [], [], []⟩
        (createEndpoint 1 100 1 100 9
          ⟨some [⟨1, 100⟩, ⟨1, 50⟩], some [1], false, false, none, "n", "t"⟩
          ⟨[], [], [], [], [], []⟩)
      = ⟨[], [], [], [], [], []⟩ :=
  c6_duplicate_ingredient_rejected 1 100 1 100 9
    ⟨some [⟨1, 100⟩, ⟨1, 50⟩], some [1], false, false, none, "n", "t"⟩
    ⟨[], [], [], [], [], []⟩ [⟨1, 100⟩, ⟨1, 50⟩] rfl rfl (by decide)

theorem validate_ingredients_singleton_ok {amin amax a : Int} {i : Nat}
    (h1 : amin ≤ a) (h2 : a ≤ amax) :
    validate_ingredients amin amax (some [⟨i, a⟩]) = .ok (some [⟨i, a⟩]) := by
  simp only [validate_ingredients]
  rw [if_neg (by simp), if_neg (by simp [hasDuplicate]),
    if_pos (by simp [amountOk, h1, h2])]

theorem validate_ingredients_singleton_oob {amin amax a : Int} {i : Nat}
    (h : ¬ (amin ≤ a ∧ a ≤ amax)) :
    validate_ingredients amin amax (some [⟨i, a⟩])
      = .error ("Количество для ингредиента должно быть в диапазоне "
          ++ toString amin ++ "…" ++ toString amax ++ ".") := by
  simp only [validate_ingredients]
  rw [if_neg (by simp), if_neg (by simp [hasDuplicate]),
    if_neg (by simp [amountOk]; omega)]

theorem ingredientAmounts_setTagsAndIngredients_bounds
    {amin amax : Int} {rid : Nat} {tags : Option (List Nat)}
    {ings : Option (List IngEntry)} {s : Store}
    (hok : ∀ l, ings = some l → ∀ e ∈ l, amin ≤ e.amount ∧ e.amount ≤ amax) :
    ∀ row ∈ (setTagsAndIngredients rid tags ings s).ingredientAmounts,
      row ∈ s.ingredientAmounts ∨ (amin ≤ row.amount ∧ row.amount ≤ amax) := by
  intro row hrow
  unfold setTagsAndIngredients at hrow
  cases hi : ings with
  | none =>
    rw [hi] at hrow
    cases tags <;> exact Or.inl hrow
  | some l =>
    rw [hi] at hrow
    have hrow2 : row ∈ s.ingredientAmounts.filter (fun r => r.recipe ≠ rid)
          ++ l.map (fun e => ⟨rid, e.ingredient, e.amount⟩) := by
      cases tags <;> simpa using hrow
    rcases List.mem_append.mp hrow2 with hmem | hmem
    · exact Or.inl (List.mem_of_mem_filter hmem)
    · rcases List.mem_map.mp hmem with ⟨e, he, rfl⟩
      exact Or.inr (hok l hi e he)

/-- C7: validation accepts a submitted amount equal to `MIN_AMOUNT` and one
equal to `MAX_INGR_AMOUNT`, rejects `MIN_AMOUNT - 1` and
`MAX_INGR_AMOUNT + 1` with the ValidationError naming both bounds, and no
`IngredientAmount` row whose amount is outside the bounds ever reaches
storage through the create or the update endpoint: every stored row either
predates the call or satisfies the bounds. -/
theorem c7_amount_bounds (amin amax tmin tmax : Int) (i author : Nat)
    (p : RawPayload) (s : Store) (hle : amin ≤ amax) :
    validate_ingredients amin amax (some [⟨i, amin⟩]) = .ok (some [⟨i, amin⟩])
    ∧ validate_ingredients amin amax (some [⟨i, amax⟩]) = .ok (some [⟨i, amax⟩])
    ∧ validate_ingredients amin amax (some [⟨i, amin - 1⟩])
        = .error ("Количество для ингредиента должно быть в диапазоне "
            ++ toString amin ++ "…" ++ toString amax ++ ".")
    ∧ validate_ingredients amin amax (some [⟨i, amax + 1⟩])
        = .error ("Количество для ингредиента должно быть в диапазоне "
            ++ toString amin ++ "…" ++ toString amax ++ ".")
    ∧ (∀ rid s', createEndpoint amin amax tmin tmax author p s = .ok (rid, s') →
        ∀ row ∈ s'.ingredientAmounts,
          row ∈ s.ingredientAmounts ∨ (amin ≤ row.amount ∧ row.amount ≤ amax))
    ∧ (∀ rid scalars s',
        updateEndpoint amin amax tmin tmax rid scalars p s = .ok s' →
        ∀ row ∈ s'.ingredientAmounts,
          row ∈ s.ingredientAmounts ∨ (amin ≤ row.amount ∧ row.amount ≤ amax)) := by
  refine ⟨validate_ingredients_singleton_ok le_rfl hle,
    validate_ingredients_singleton_ok hle le_rfl,
    validate_ingredients_singleton_oob (by omega),
    validate_ingredients_singleton_oob (by omega), ?_, ?_⟩
  · intro rid s' hok
    unfold createEndpoint at hok
    cases hrv : runValidation amin amax tmin tmax false p with
    | error e => rw [hrv] at hok; exact (Except.noConfusion hok)
    | ok v =>
      rw [hrv] at hok
      obtain ⟨rfl, ⟨w, hvi⟩, _⟩ := runValidation_ok_parts hrv
      simp only [Except.ok.injEq, Prod.mk.injEq] at hok
      obtain ⟨-, rfl⟩ := hok
      apply ingredientAmounts_setTagsAndIngredients_bounds
      intro l hl e he
      cases hpi : v.ingredients with
      | none =>
        rw [hpi] at hl
        simp only [Option.getD_none, Option.some.injEq] at hl
        subst hl
        exact absurd he (by simp)
      | some l0 =>
        rw [hpi] at hl
        simp only [Option.getD_some, Option.some.injEq] at hl
        subst hl
        rw [hpi] at hvi
        exact (validate_ingredients_ok_bounds hvi).2 e he
  · intro rid scalars s' hok
    unfold updateEndpoint at hok
    cases hrv : runValidation amin amax tmin tmax true p with
    | error e => rw [hrv] at hok; exact (Except.noConfusion hok)
    | ok v =>
      rw [hrv] at hok
      obtain ⟨rfl, ⟨w, hvi⟩, _⟩ := runValidation_ok_parts hrv
      simp only [Except.ok.injEq] at hok
      subst hok
      apply ingredientAmounts_setTagsAndIngredients_bounds
      intro l hl e he
      rw [hl] at hvi
      exact (validate_ingredients_ok_bounds hvi).2 e he

/-- C7 witness: with bounds `1 … 100`, amount 1 and 100 pass, amount 0 and
101 fail, and a concrete successful creation writes only in-bounds rows. -/
theorem c7_amount_bounds_witness :
    validate_ingredients 1 100 (some [⟨5, 1⟩]) = .ok (some [⟨5, 1⟩])
    ∧ validate_ingredients 1 100 (some [⟨5, 100⟩]) = .ok (some [⟨5, 100⟩])
    ∧ validate_ingredients 1 100 (some [⟨5, 0⟩])
        = .error ("Количество для ингредиента должно быть в диапазоне "
            ++ toString (1 : Int) ++ "…" ++ toString (100 : Int) ++ ".")
    ∧ validate_ingredients 1 100 (some [⟨5, 101⟩])
        = .error ("Количество для ингредиента должно быть в диапазоне "
            ++ toString (1 : Int) ++ "…" ++ toString (100 : Int) ++ ".")
    ∧ (∀ rid s', createEndpoint 1 100 1 100 9
          ⟨some [⟨5, 7⟩], some [1], false, false, none, "n", "t"⟩
          ⟨[], [], [], [], [], []⟩ = .ok (rid, s') →
        ∀ row ∈ s'.ingredientAmounts,
          row ∈ (⟨[], [], [], [], [], []⟩ : Store).ingredientAmounts
            ∨ (1 ≤ row.amount ∧ row.amount ≤ 100))
    ∧ (∀ rid scalars s', updateEndpoint 1 100 1 100 rid scalars
          ⟨some [⟨5, 7⟩], some [1], false, false, none, "n", "t"⟩
          ⟨[], [], [], [], [], []⟩ = .ok s' →
        ∀ row ∈ s'.ingredientAmounts,
          row ∈ (⟨[], [], [], [], [], []⟩ : Store).ingredientAmounts
            ∨ (1 ≤ row.amount ∧ row.amount ≤ 100)) :=
  c7_amount_bounds 1 100 1 100 5 9
    ⟨some [⟨5, 7⟩], some [1], false, false, none, "n", "t"⟩
    ⟨[], [], [], [], [], []⟩ (by decide)

theorem filter_recipe_replaced (rid : Nat) (old : List IngredientAmount)
    (X : List IngEntry) :
    ((old.filter (fun r => r.recipe ≠ rid)
        ++ X.map (fun e => (⟨rid, e.ingredient, e.amount⟩ : IngredientAmount))).filter
          (fun row => decide (row.recipe = rid)))
      = X.map (fun e => ⟨rid, e.ingredient, e.amount⟩) := by
  rw [List.filter_append]
  have h1 : (old.filter (fun r => r.recipe ≠ rid)).filter
      (fun row => decide (row.recipe = rid)) = [] := by
    rw [List.filter_eq_nil_iff]
    intro a ha
    have := List.of_mem_filter ha
    simp only [decide_eq_true_eq] at this ⊢
    exact this
  have h2 : (X.map (fun e => (⟨rid, e.ingredient, e.amount⟩ : IngredientAmount))).filter
      (fun row => decide (row.recipe = rid))
      = X.map (fun e => ⟨rid, e.ingredient, e.amount⟩) := by
    rw [List.filter_eq_self]
    intro a ha
    rcases List.mem_map.mp ha with ⟨e, -, rfl⟩
    simp
  rw [h1, h2, List.nil_append]

/-- C3: after an update whose submitted (valid) ingredient list is `X`, the
stored `IngredientAmount` rows of the recipe are exactly one row per
submitted (ingredient, amount) pair and nothing else, whatever rows were
stored before the call. -/
theorem c3_update_replaces_ingredient_set (amin amax : Int) (rid : Nat)
    (scalars : Recipe → Recipe) (tags : Option (List Nat)) (X : List IngEntry)
    (s : Store)
    (hvalid : validate_ingredients amin amax (some X) = .ok (some X)) :
    (updateRecipe rid scalars tags (some X) s).ingredientAmounts.filter
        (fun row => decide (row.recipe = rid))
      = X.map (fun e => ⟨rid, e.ingredient, e.amount⟩) := by
  unfold updateRecipe setTagsAndIngredients
  cases tags <;> exact filter_recipe_replaced rid _ X

/-- C3 witness: replacing the stored rows `[(2, 5)]` of recipe 1 by the
submitted list `[(7, 3)]` leaves exactly the submitted pair. -/
theorem c3_update_replaces_ingredient_set_witness :
    (updateRecipe 1 id none (some [⟨7, 3⟩])
        ⟨[⟨1, 9, "r", "t", "img", 10⟩], [], [⟨1, 2, 5⟩], [], [], []⟩).ingredientAmounts.filter
          (fun row => decide (row.recipe = 1))
      = [⟨1, 7, 3⟩] :=
  c3_update_replaces_ingredient_set 1 100 1 id none [⟨7, 3⟩]
    ⟨[⟨1, 9, "r", "t", "img", 10⟩], [], [⟨1, 2, 5⟩], [], [], []⟩ rfl

theorem readTagIds_replaced (rid : Nat) (old : List (Nat × Nat))
    (ts : List Nat) (s : Store)
    (hs : s.recipeTags = old.filter (fun p => p.1 ≠ rid)
        ++ ts.map (fun t => (rid, t))) :
    readTagIds s rid = ts := by
  unfold readTagIds
  rw [hs, List.filter_append]
  have h1 : (old.filter (fun p => p.1 ≠ rid)).filter
      (fun p => decide (p.1 = rid)) = [] := by
    rw [List.filter_eq_nil_iff]
    intro a ha
    have := List.of_mem_filter ha
    simp only [decide_eq_true_eq] at this ⊢
    exact this
  have h2 : (ts.map (fun t => ((rid, t) : Nat × Nat))).filter
      (fun p => decide (p.1 = rid)) = ts.map (fun t => (rid, t)) := by
    rw [List.filter_eq_self]
    intro a ha
    rcases List.mem_map.mp ha with ⟨t, -, rfl⟩
    simp
  rw [h1, h2, List.nil_append, List.map_map]
  simp

/-- C8: a successful create followed by a read of the created recipe hands
back tag and ingredient collections equal, as sets, to the submitted tag ids
and (ingredient id, amount) pairs. -/
theorem c8_create_read_roundtrip (amin amax tmin tmax : Int) (author : Nat)
    (p : RawPayload) (s : Store) (l : List IngEntry) (ts : List Nat)
    (rid : Nat) (s' : Store)
    (hi : p.ingredients = some l) (ht : p.tags = some ts)
    (h : createEndpoint amin amax tmin tmax author p s = .ok (rid, s')) :
    (∀ t, t ∈ readTagIds s' rid ↔ t ∈ ts)
    ∧ (∀ q : Nat × Int, q ∈ readIngredientPairs s' rid
        ↔ q ∈ l.map (fun e => (e.ingredient, e.amount))) := by
  unfold createEndpoint at h
  cases hrv : runValidation amin amax tmin tmax false p with
  | error e => rw [hrv] at h; exact (Except.noConfusion h)
  | ok v =>
    rw [hrv] at h
    obtain ⟨rfl, -, -⟩ := runValidation_ok_parts hrv
    simp only [Except.ok.injEq] at h
    have hrid : rid = freshId s := (congrArg Prod.fst h).symm
    have hs2 : s' = (createRecipe author v s).2 := (congrArg Prod.snd h).symm
    subst hrid
    subst hs2
    constructor
    · have htags : readTagIds
          (createRecipe author v s).2 (freshId s) = ts := by
        apply readTagIds_replaced (freshId s) s.recipeTags ts
        unfold createRecipe setTagsAndIngredients
        simp only [ht, Option.getD_some]
      intro t
      rw [htags]
    · have hpairs : readIngredientPairs
          (createRecipe author v s).2 (freshId s)
          = l.map (fun e => (e.ingredient, e.amount)) := by
        unfold readIngredientPairs createRecipe setTagsAndIngredients
        simp only [ht, hi, Option.getD_some]
        rw [filter_recipe_replaced, List.map_map]
        rfl
      intro q
      rw [hpairs]

/-- C8 witness: creating a recipe with tags `[3]` and ingredients
`[(5, 7)]` on the empty store reads back exactly those sets. -/
theorem c8_create_read_roundtrip_witness :
    (∀ t, t ∈ readTagIds
        (createRecipe 9 ⟨some [⟨5, 7⟩], some [3], false, false, none, "n", "t"⟩
          ⟨[], [], [], [], [], []⟩).2 1 ↔ t ∈ [3])
    ∧ (∀ q : Nat × Int, q ∈ readIngredientPairs
        (createRecipe 9 ⟨some [⟨5, 7⟩], some [3], false, false, none, "n", "t"⟩
          ⟨[], [], [], [], [], []⟩).2 1
        ↔ q ∈ [(5, (7 : Int))]) :=
  c8_create_read_roundtrip 1 100 1 100 9
    ⟨some [⟨5, 7⟩], some [3], false, false, none, "n", "t"⟩
    ⟨[], [], [], [], [], []⟩ [⟨5, 7⟩] [3] 1
    (createRecipe 9 ⟨some [⟨5, 7⟩], some [3], false, false, none, "n", "t"⟩
      ⟨[], [], [], [], [], []⟩).2
    rfl rfl rfl

/-- C1: with the transactional execution required by the spec (modelled by
`atomically`, since the transaction wiring lives outside the sources at
hand), a create or update in which every sub-step succeeds commits exactly
the serializer's three writes, and a failure of any of the three sub-steps
(recipe/scalar write, tag replacement, ingredient replacement) leaves the
observable store exactly as it was before the call — no partially created
recipe or partially replaced association set is ever observable. -/
theorem c1_create_update_atomic (author : Nat) (p : RawPayload) (rid : Nat)
    (scalars : Recipe → Recipe) (tags : Option (List Nat))
    (ings : Option (List IngEntry)) (s : Store) :
    atomically s (faulty none (createStepList author p (freshId s)))
        = ((createRecipe author p s).2, true)
    ∧ (∀ k, k < 3 →
        atomically s (faulty (some k) (createStepList author p (freshId s)))
          = (s, false))
    ∧ atomically s (faulty none (updateStepList rid scalars tags ings))
        = (updateRecipe rid scalars tags ings s, true)
    ∧ (∀ k, k < 3 →
        atomically s (faulty (some k) (updateStepList rid scalars tags ings))
          = (s, false)) := by
  refine ⟨?_, ?_, ?_, ?_⟩
  · rfl
  · intro k hk
    interval_cases k <;> rfl
  · cases tags <;> cases ings <;> rfl
  · intro k hk
    interval_cases k <;> rfl

/-- C1 witness: fault injection at each of the three sub-steps of a concrete
create and a concrete update rolls the store back. -/
theorem c1_create_update_atomic_witness :
    atomically ⟨[], [], [], [], [], []⟩
        (faulty (some 1) (createStepList 9
          ⟨some [⟨5, 7⟩], some [3], false, false, none, "n", "t"⟩
          (freshId ⟨[], [], [], [], [], []⟩)))
      = (⟨[], [], [], [], [], []⟩, false)
    ∧ atomically ⟨[], [], [], [], [], []⟩
        (faulty (some 2) (updateStepList 1 id (some [3]) (some [⟨5, 7⟩])))
      = (⟨[], [], [], [], [], []⟩, false) :=
  ⟨(c1_create_update_atomic 9
      ⟨some [⟨5, 7⟩], some [3], false, false, none, "n", "t"⟩ 1 id (some [3])
      (some [⟨5, 7⟩]) ⟨[], [], [], [], [], []⟩).2.1 1 (by decide),
   (c1_create_update_atomic 9
      ⟨some [⟨5, 7⟩], some [3], false, false, none, "n", "t"⟩ 1 id (some [3])
      (some [⟨5, 7⟩]) ⟨[], [], [], [], [], []⟩).2.2.2 2 (by decide)⟩

theorem cartJoinRows_nil (s : Store) (u : Nat)
    (h : ∀ q ∈ s.cartItems, q.1 ≠ u) : cartJoinRows s u = [] := by
  unfold cartJoinRows
  have hf : s.ingredientAmounts.filter (fun r => inCartOf s u r.recipe) = [] := by
    rw [List.filter_eq_nil_iff]
    intro a _
    simp only [inCartOf, decide_eq_true_eq]
    intro hmem
    exact h _ hmem rfl
  rw [hf]
  rfl

theorem mem_sortedKeys_iff (l : List (String × String × Int))
    (k : String × String) :
    k ∈ sortedKeys l ↔ ∃ a : Int, (k.1, k.2, a) ∈ l := by
  unfold sortedKeys groupKeys
  rw [List.mem_insertionSort, List.mem_dedup, List.mem_map]
  constructor
  · rintro ⟨x, hx, rfl⟩
    exact ⟨x.2.2, by simpa [rowKey] using hx⟩
  · rintro ⟨a, ha⟩
    exact ⟨(k.1, k.2, a), ha, rfl⟩

/-- The store of the claim's scenario: a cart of user 7 holding recipe A
(flour@100, egg@2) and recipe B (flour@50), with the flour rows inserted
before the egg row. -/
def demoStore : Store :=
  { recipes := [⟨10, 1, "A", "", "img", 5⟩, ⟨11, 1, "B", "", "img", 5⟩],
    recipeTags := [],
    ingredientAmounts := [⟨10, 1, 100⟩, ⟨10, 2, 2⟩, ⟨11, 1, 50⟩],
    ingredients := [⟨1, "flour", "g"⟩, ⟨2, "egg", "pcs"⟩],
    bookmarks := [],
    cartItems := [(7, 10), (7, 11)] }

/-- C4: the shopping-list build selects the cart's `IngredientAmount` rows,
groups them by (ingredient name, measurement unit), sums the amounts per
group, orders the groups by name ascending and renders one
"name — total unit" line per group; on the claim's scenario
(flour@100, egg@2, flour@50) it yields exactly the two lines
"egg — 2 pcs" and "flour — 150 g" in name order despite the insertion
order; a cart with no rows for the user yields the fixed placeholder line,
never an empty body; in general the rendered keys are sorted by name and
are exactly the (name, unit) pairs occurring in the cart join. -/
theorem c4_shopping_list_build (s : Store) (u : Nat) :
    buildShoppingList demoStore 7 = "egg — 2 pcs\nflour — 150 g"
    ∧ ((∀ q ∈ s.cartItems, q.1 ≠ u) →
        buildShoppingList s u = "Список покупок пуст.")
    ∧ (sortedKeys (cartJoinRows s u)).Pairwise keyLe
    ∧ (∀ k : String × String, k ∈ sortedKeys (cartJoinRows s u)
        ↔ ∃ a : Int, (k.1, k.2, a) ∈ cartJoinRows s u) := by
  refine ⟨rfl, ?_, ?_, ?_⟩
  · intro h
    have hnil : cartJoinRows s u = [] := cartJoinRows_nil s u h
    unfold buildShoppingList
    rw [hnil]
    rfl
  · exact List.sorted_insertionSort keyLe (groupKeys (cartJoinRows s u))
  · exact mem_sortedKeys_iff (cartJoinRows s u)

/-- C4 witness: a user with an empty cart gets the placeholder line, and the
scenario output is as claimed. -/
theorem c4_shopping_list_build_witness :
    buildShoppingList ⟨[], [], [], [], [], []⟩ 0 = "Список покупок пуст."
    ∧ buildShoppingList demoStore 7 = "egg — 2 pcs\nflour — 150 g" :=
  ⟨(c4_shopping_list_build ⟨[], [], [], [], [], []⟩ 0).2.1 (by simp),
   (c4_shopping_list_build ⟨[], [], [], [], [], []⟩ 0).1⟩

end Foodgram
